import Mathlib

/-!
Verification of the core computational path of a small real-estate
price-projection web application.  The embedded functions are translated from
`src/app.py` (haversine distance, closest-metro lookup, chart y-axis range,
request orchestration) and `src/predict.py` (stacked-model inference with
artifact loading and error handling).

Python floats are modelled as exact rationals, Python dynamically typed
values that flow through the prediction list as an inductive `Value`
(float or string), and Python exceptions as an explicit `Except` layer.
Exception message texts follow the CPython messages, with quotation marks
elided.
-/

namespace PredictionApp

/-- A Python runtime value appearing in the prediction pipeline: either a
float (modelled exactly as a rational) or a string.  `get_prediction`
returns a float on success with `raw_output=True` and an error-message
string on failure, so both kinds flow into the same lists. -/
inductive Value where
  | num (q : ℚ)
  | str (s : String)
deriving DecidableEq

/-- A Python exception as it matters to this code: `FileNotFoundError`
carries the missing filename (read in `predict.py` as `e.filename`); every
other exception is represented by its message text. -/
inductive PyExn where
  | fileNotFound (filename : String)
  | other (msg : String)
deriving DecidableEq

/-- Python `x < y` on the values at hand: floats compare numerically,
strings lexicographically, and a mixed comparison raises `TypeError`. -/
def pyLt : Value → Value → Except PyExn Bool
  | .num a, .num b => .ok (decide (a < b))
  | .str a, .str b => .ok (decide (a < b))
  | .str _, .num _ =>
      .error (.other "TypeError: < not supported between instances of str and float")
  | .num _, .str _ =>
      .error (.other "TypeError: < not supported between instances of float and str")

/-- Python `x > y`, same typing rules as `pyLt`. -/
def pyGt : Value → Value → Except PyExn Bool
  | .num a, .num b => .ok (decide (b < a))
  | .str a, .str b => .ok (decide (b < a))
  | .str _, .num _ =>
      .error (.other "TypeError: > not supported between instances of str and float")
  | .num _, .str _ =>
      .error (.other "TypeError: > not supported between instances of float and str")

/-- The scan CPython `min`/`max` perform over an iterable: keep the current
best element, replacing it when the strict comparison against the candidate
succeeds, so the first element achieving the optimum is kept. -/
def pyFoldBest (better : Value → Value → Except PyExn Bool) :
    Value → List Value → Except PyExn Value
  | cur, [] => .ok cur
  | cur, x :: xs => do
    let b ← better x cur
    pyFoldBest better (if b then x else cur) xs

/-- Python `min(xs)`: `ValueError` on an empty list, otherwise the leftmost
minimum under `pyLt`. -/
def pyMin : List Value → Except PyExn Value
  | [] => .error (.other "ValueError: min() arg is an empty sequence")
  | x :: xs => pyFoldBest pyLt x xs

/-- Python `max(xs)`: `ValueError` on an empty list, otherwise the leftmost
maximum under `pyGt`. -/
def pyMax : List Value → Except PyExn Value
  | [] => .error (.other "ValueError: max() arg is an empty sequence")
  | x :: xs => pyFoldBest pyGt x xs

/-- Python `x == y` on these values: numeric or string equality, `False`
across kinds (no exception). -/
def pyEq : Value → Value → Bool
  | .num a, .num b => decide (a = b)
  | .str a, .str b => decide (a = b)
  | _, _ => false

/-- Python `x != 0`: numeric inequality for floats; a string is always
`!= 0`. -/
def pyNeZero : Value → Bool
  | .num a => decide (a ≠ 0)
  | .str _ => true

/-- Python `abs(x * 0.1)` as used for the 10 percent padding: raises
`TypeError` when `x` is a string (`str * float` is not defined). -/
def pyPadding : Value → Except PyExn ℚ
  | .num a => .ok |a * (1 / 10)|
  | .str _ => .error (.other "TypeError: cannot multiply sequence by non-int of type float")

/-- Python `x - p` with `p` a float: `TypeError` when `x` is a string. -/
def pySubFloat : Value → ℚ → Except PyExn ℚ
  | .num a, p => .ok (a - p)
  | .str _, _ => .error (.other "TypeError: unsupported operand types for - : str and float")

/-- Python `x + p` with `p` a float: `TypeError` when `x` is a string. -/
def pyAddFloat : Value → ℚ → Except PyExn ℚ
  | .num a, p => .ok (a + p)
  | .str _, _ => .error (.other "TypeError: unsupported operand types for + : str and float")

/-- Exact value of `math.floor(math.log10 q)` for a positive rational `q`,
computed without real logarithms: for `q ≥ 1` it is `Nat.log 10` of the
integer part, otherwise the negated ceiling-logarithm of `1/q`. -/
def floorLog10 (q : ℚ) : ℤ :=
  if 1 ≤ q then (Nat.log 10 ⌊q⌋₊ : ℤ)
  else -(Nat.clog 10 ⌈q⁻¹⌉₊ : ℤ)

/-- Embedding of `calculate_y_axis_range` from `src/app.py`, over the
dynamically typed prediction list the caller actually passes (the code
appends whatever `get_prediction` returned).  Mirrors the source line by
line: `min`/`max`, the all-equal branch with its 10 percent (or `±1`)
padding, and otherwise the order-of-magnitude rounding with the collapse
expansion.  `math.log10` on a non-positive float raises
`ValueError: math domain error`, on a string `TypeError`. -/
def calculate_y_axis_range (predictions : List Value) : Except PyExn (ℚ × ℚ) := do
  let min_val ← pyMin predictions
  let max_val ← pyMax predictions
  if pyEq min_val max_val then do
    let padding ← if pyNeZero min_val then pyPadding min_val else .ok 1
    let lo ← pySubFloat min_val padding
    let hi ← pyAddFloat max_val padding
    .ok (lo, hi)
  else
    match max_val with
    | .str _ => .error (.other "TypeError: must be real number, not str")
    | .num b =>
      if b ≤ 0 then .error (.other "ValueError: math domain error")
      else
        let rounding_unit : ℚ := 10 ^ (floorLog10 b - 1)
        match min_val with
        | .str _ =>
            .error (.other "TypeError: unsupported operand types for / : str and float")
        | .num a =>
          let y_min := (⌊a / rounding_unit⌋ : ℚ) * rounding_unit
          let y_max := (⌈b / rounding_unit⌉ : ℚ) * rounding_unit
          if y_min = y_max then .ok (y_min - rounding_unit, y_max + rounding_unit)
          else .ok (y_min, y_max)

/-- Embedding of `haversine` from `src/app.py`: degrees are converted to
radians, then the great-circle distance on a sphere of radius 6371 km is
returned.  Real trigonometric functions replace the float ones of
`math`. -/
noncomputable def haversine (lon1 lat1 lon2 lat2 : ℝ) : ℝ :=
  let rlon1 := lon1 * Real.pi / 180
  let rlat1 := lat1 * Real.pi / 180
  let rlon2 := lon2 * Real.pi / 180
  let rlat2 := lat2 * Real.pi / 180
  let dlon := rlon2 - rlon1
  let dlat := rlat2 - rlat1
  let a := Real.sin (dlat / 2) ^ 2 +
    Real.cos rlat1 * Real.cos rlat2 * Real.sin (dlon / 2) ^ 2
  let c := 2 * Real.arcsin (Real.sqrt a)
  c * 6371

/-- One row of the metro-stations table after the numeric coercion at load
time: a name and finite latitude/longitude (floats, modelled as
rationals). -/
structure Metro where
  name : String
  latitude : ℚ
  longitude : ℚ
deriving DecidableEq

/-- Distance from the user coordinate to a metro station, exactly the
argument order used in `find_closest_metro`:
`haversine(user_lon, user_lat, row.longitude, row.latitude)`. -/
noncomputable def metroDistance (user_lat user_lon : ℚ) (m : Metro) : ℝ :=
  haversine (user_lon : ℝ) (user_lat : ℝ) (m.longitude : ℝ) (m.latitude : ℝ)

/-- The scan performed by `Series.idxmin` over the distance series: keep
the current minimum, replacing it only on a strictly smaller distance, so
the first row achieving the minimum wins ties. -/
noncomputable def closestScan (d : Metro → ℝ) : Metro → List Metro → Metro
  | cur, [] => cur
  | cur, x :: xs => if d x < d cur then closestScan d x xs else closestScan d cur xs

/-- Embedding of `find_closest_metro` from `src/app.py`: `None` on an
empty store, otherwise the first stored row of minimal haversine distance
to the query point. -/
noncomputable def find_closest_metro (store : List Metro) (user_lat user_lon : ℚ) :
    Option Metro :=
  match store with
  | [] => none
  | m :: ms => some (closestScan (metroDistance user_lat user_lon) m ms)

/-- A single-row pandas DataFrame, as a column-name/value association list
in column order. -/
abbrev Row := List (String × Value)

/-- Column lookup in a single-row DataFrame (first binding wins). -/
def lookupCol : Row → String → Option Value
  | [], _ => none
  | (k, v) :: r, c => if k = c then some v else lookupCol r c

/-- The safety-net loop of `get_prediction`: for each expected column, if
it is absent from the DataFrame, append it with the neutral value `0`. -/
def fillCols (row : Row) : List String → Row
  | [] => row
  | c :: cs =>
    fillCols (if (lookupCol row c).isSome then row else row ++ [(c, Value.num 0)]) cs

/-- Column assignment `df[c] = v`, keeping column order. -/
def setCol (row : Row) (c : String) (v : Value) : Row :=
  row.map (fun p => if p.1 = c then (c, v) else p)

/-- Assignment of a block of scaled values back into their columns,
`df[cols] = scaled`. -/
def assignCols (row : Row) (cols : List String) (vals : List Value) : Row :=
  (cols.zip vals).foldl (fun r p => setCol r p.1 p.2) row

/-- Column selection `df[cols]`: pandas raises a `KeyError` when a
requested column is absent. -/
def selectCols (row : Row) (cols : List String) : Except PyExn (List Value) :=
  cols.mapM (fun c =>
    match lookupCol row c with
    | some v => Except.ok v
    | none => Except.error (PyExn.other ("KeyError: " ++ c ++ " not in index")))

/-- The fixed list of base models loaded by `get_prediction`, in load and
iteration order. -/
def baseModelNames : List String := ["random_forest", "xgboost", "linear_reg"]

/-- The artifact files `get_prediction` loads, in load order. -/
def artifactFiles : List String :=
  ["scaler.joblib", "scaled_features_list.joblib", "random_forest.joblib",
   "xgboost.joblib", "linear_reg.joblib", "meta_model.joblib"]

/-- The externally trained, opaque model artifacts and the filesystem they
are loaded from.  `files` lists the artifact files that exist;
`scaledFeaturesList` is the content of `scaled_features_list.joblib`; the
function fields are the opaque `transform`/`predict` behaviours of the
pickled scaler, base regressors (by name, with their
`feature_names_in_`), and meta regressor (with its `feature_names_`).
Each may fail with an exception message, modelling arbitrary faults inside
the library calls. -/
structure ModelEnv where
  files : List String
  scaledFeaturesList : List String
  transform : List Value → Except String (List Value)
  baseFeatures : String → List String
  basePredict : String → List Value → Except String ℚ
  metaFeatures : List String
  metaPredict : List Value → Except String ℚ

/-- `joblib.load(resource_path(filename))`: raises `FileNotFoundError`
carrying the filename when the file does not exist. -/
def loadArtifact (env : ModelEnv) (filename : String) : Except PyExn Unit :=
  if filename ∈ env.files then Except.ok () else Except.error (PyExn.fileNotFound filename)

/-- Round to the nearest integer, ties to even, as float formatting
does. -/
def roundHalfEven (x : ℚ) : ℤ :=
  let f := ⌊x⌋
  let r := x - f
  if r < 1 / 2 then f
  else if 1 / 2 < r then f + 1
  else if f % 2 = 0 then f else f + 1

/-- Insert a comma after every third character of a reversed digit
list. -/
def insertCommas : List Char → List Char
  | c1 :: c2 :: c3 :: c4 :: rest => c1 :: c2 :: c3 :: ',' :: insertCommas (c4 :: rest)
  | l => l

/-- The currency formatting of the non-raw branch of `get_prediction`:
two decimals, thousands separators, and the unit suffix. -/
def formatAED (q : ℚ) : String :=
  let cents := roundHalfEven (q * 100)
  let sign := if cents < 0 then "-" else ""
  let n := cents.natAbs
  let intStr := String.mk (insertCommas (Nat.repr (n / 100)).data.reverse).reverse
  let frac := n % 100
  let fracStr := (if frac < 10 then "0" else "") ++ Nat.repr frac
  sign ++ intStr ++ "." ++ fracStr ++ " AED"

/-- The message built by the `FileNotFoundError` handler of
`get_prediction`, naming the missing artifact file. -/
def fileNotFoundMessage (filename : String) : String :=
  "Error: A required model file was not found. Please check your model directory. Missing file: " ++ filename

/-- The message built by the generic exception handler of
`get_prediction` (the traceback text appended by the source is elided). -/
def unexpectedErrorMessage (msg : String) : String :=
  "An unexpected error occurred in prediction: " ++ msg

/-- The `try` block of `get_prediction` in `src/predict.py`, step by step:
load the scaler and the scaled-feature list, fill absent expected columns
with `0` and scale, load the three base models and the meta model, run
each base model on its own feature columns, assemble the base outputs into
a one-row frame, and run the meta model; the raw float or the formatted
string is returned according to `raw_output`. -/
def get_prediction_body (env : ModelEnv) (input_df : Row) (raw_output : Bool) :
    Except PyExn Value := do
  let _ ← loadArtifact env "scaler.joblib"
  let _ ← loadArtifact env "scaled_features_list.joblib"
  let num_cols_to_scale := env.scaledFeaturesList
  let processed_df ←
    if num_cols_to_scale.isEmpty then Except.ok input_df
    else do
      let filled := fillCols input_df num_cols_to_scale
      let data_to_scale ← selectCols filled num_cols_to_scale
      let scaled_data ← (env.transform data_to_scale).mapError PyExn.other
      Except.ok (assignCols filled num_cols_to_scale scaled_data)
  let _ ← loadArtifact env "random_forest.joblib"
  let _ ← loadArtifact env "xgboost.joblib"
  let _ ← loadArtifact env "linear_reg.joblib"
  let _ ← loadArtifact env "meta_model.joblib"
  let base_predictions ← baseModelNames.mapM (fun name => do
    let feats ← selectCols processed_df (env.baseFeatures name)
    let pred ← (env.basePredict name feats).mapError PyExn.other
    Except.ok (name, Value.num pred))
  let meta_vals ← selectCols base_predictions env.metaFeatures
  let final_prediction ← (env.metaPredict meta_vals).mapError PyExn.other
  if raw_output then Except.ok (Value.num final_prediction)
  else Except.ok (Value.str (formatAED final_prediction))

/-- Embedding of `get_prediction` from `src/predict.py`: the `try` block
wrapped in the two `except` clauses, each of which swallows the exception
and returns a message string as the ordinary return value. -/
def get_prediction (env : ModelEnv) (input_df : Row) (raw_output : Bool) : Value :=
  match get_prediction_body env input_df raw_output with
  | .ok v => v
  | .error (.fileNotFound f) => .str (fileNotFoundMessage f)
  | .error (.other m) => .str (unexpectedErrorMessage m)

/-- The `projection_data` dictionary built on the success path of the
`index` route. -/
structure ProjectionData where
  labels : List String
  values : List Value
  y_min : ℚ
  y_max : ℚ
deriving DecidableEq

/-- What the `index` route hands to the template after a POST: either the
full projection dictionary or a dictionary holding only an error
message. -/
inductive Response where
  | data (p : ProjectionData)
  | err (msg : String)
deriving DecidableEq

/-- Python `str(e)` for the exceptions that can reach the outer handler
of the `index` route.  (`FileNotFoundError` is already swallowed inside
`get_prediction`, so only the message-carrying case is reachable.) -/
def pyStrOfExn : PyExn → String
  | .fileNotFound f => f
  | .other m => m

/-- `range(current_year, current_year + 4)` as a list of years. -/
def yearRange (current_year : ℤ) : List ℤ :=
  (List.range 4).map (fun i => current_year + (i : ℤ))

/-- The `base_input_data` row of the `index` route with the `year` column
of one loop iteration. -/
def mkInputRow (area_name : String) (rooms : ℤ) (user_lat user_lon m_lat m_lon : ℚ)
    (year : ℤ) : Row :=
  [("area_name_en", Value.str area_name), ("rooms_en", Value.num (rooms : ℚ)),
   ("latitude", Value.num user_lat), ("longitude", Value.num user_lon),
   ("latitude_metro", Value.num m_lat), ("longitude_metro", Value.num m_lon),
   ("year", Value.num (year : ℚ))]

/-- The `try` block of the POST branch of the `index` route, after form
parsing: find the closest metro (raising `ValueError` when there is
none), run `get_prediction` with `raw_output=True` for each of the four
years, derive the y-axis range, and assemble `projection_data`.  The
current calendar year, read from the clock in the source, is a
parameter. -/
noncomputable def handleProjection (store : List Metro) (env : ModelEnv)
    (user_lat user_lon : ℚ) (rooms current_year : ℤ) : Except PyExn ProjectionData := do
  let closest ← match find_closest_metro store user_lat user_lon with
    | none => Except.error (PyExn.other "Could not find closest metro. Check data file.")
    | some m => Except.ok m
  let years := yearRange current_year
  let predictions := years.map (fun year =>
    get_prediction env
      (mkInputRow closest.name rooms user_lat user_lon closest.latitude closest.longitude year)
      true)
  let range ← calculate_y_axis_range predictions
  Except.ok { labels := years.map (fun y => toString y), values := predictions,
              y_min := range.1, y_max := range.2 }

/-- The POST branch of the `index` route including its `except` clause:
any exception escaping the body is converted into an error-message
dictionary, so the route always returns a rendered response. -/
noncomputable def index_response (store : List Metro) (env : ModelEnv)
    (user_lat user_lon : ℚ) (rooms current_year : ℤ) : Response :=
  match handleProjection store env user_lat user_lon rooms current_year with
  | .ok p => .data p
  | .error e => .err ("Error: " ++ pyStrOfExn e)

/-- Whether a value is a float (as opposed to a string); used to state
that a successful projection holds numeric predictions only. -/
def Value.isNum : Value → Bool
  | .num _ => true
  | .str _ => false

/-- A fully stocked model directory with trivially succeeding artifact
behaviour; used to exercise the success path on concrete inputs. -/
def oracleEnv : ModelEnv :=
  { files := artifactFiles, scaledFeaturesList := [],
    transform := fun v => Except.ok v, baseFeatures := fun _ => [],
    basePredict := fun _ _ => Except.ok 0, metaFeatures := [],
    metaPredict := fun _ => Except.ok 0 }

/-- The same environment with exactly one artifact file missing:
`scaler.joblib`, the first file `get_prediction` loads. -/
def missingScalerEnv : ModelEnv :=
  { files := ["scaled_features_list.joblib", "random_forest.joblib", "xgboost.joblib",
      "linear_reg.joblib", "meta_model.joblib"],
    scaledFeaturesList := [], transform := fun v => Except.ok v,
    baseFeatures := fun _ => [], basePredict := fun _ _ => Except.ok 0,
    metaFeatures := [], metaPredict := fun _ => Except.ok 0 }

/-- An environment whose scaler expects a column (`extra_col`) that the
input row of the web app never carries. -/
def extraColumnEnv : ModelEnv :=
  { files := artifactFiles, scaledFeaturesList := ["latitude", "extra_col"],
    transform := fun v => Except.ok v, baseFeatures := fun _ => ["latitude", "extra_col"],
    basePredict := fun _ _ => Except.ok 0, metaFeatures := [],
    metaPredict := fun _ => Except.ok 0 }

/-- A one-station store used to drive the request path on concrete
inputs. -/
def oneMetroStore : List Metro := [⟨"Central", 0, 0⟩]

/-- The two-point store of the nearest-lookup test case: `P1` at the
origin and `P2` at latitude/longitude 10. -/
def twoPointStore : List Metro := [⟨"P1", 0, 0⟩, ⟨"P2", 10, 10⟩]

section Helpers

/-- Comparing a value against itself never raises. -/
lemma pyLt_self_ok (v : Value) : ∃ b, pyLt v v = Except.ok b := by
  cases v <;> exact ⟨_, rfl⟩

/-- Comparing a value against itself never raises. -/
lemma pyGt_self_ok (v : Value) : ∃ b, pyGt v v = Except.ok b := by
  cases v <;> exact ⟨_, rfl⟩

/-- Scanning a constant list returns the constant. -/
lemma pyFoldBest_const (cmp : Value → Value → Except PyExn Bool) (v : Value)
    (hb : ∃ b, cmp v v = Except.ok b) (l : List Value) (hl : ∀ u ∈ l, u = v) :
    pyFoldBest cmp v l = Except.ok v := by
  induction l with
  | nil => rfl
  | cons u t ih =>
    obtain ⟨b, hbv⟩ := hb
    have hu : u = v := hl u (by simp)
    subst hu
    simp only [pyFoldBest, hbv, bind, Except.bind, ite_self]
    exact ih fun w hw => hl w (by simp [hw])

/-- `min` of a nonempty constant list. -/
lemma pyMin_const (v : Value) (l : List Value) (hl : ∀ u ∈ l, u = v) :
    pyMin (v :: l) = Except.ok v :=
  pyFoldBest_const pyLt v (pyLt_self_ok v) l hl

/-- `max` of a nonempty constant list. -/
lemma pyMax_const (v : Value) (l : List Value) (hl : ∀ u ∈ l, u = v) :
    pyMax (v :: l) = Except.ok v :=
  pyFoldBest_const pyGt v (pyGt_self_ok v) l hl

/-- Python equality is reflexive on these values. -/
lemma pyEq_refl (v : Value) : pyEq v v = true := by
  cases v <;> simp [pyEq]

/-- The `min` scan over a list of floats computes the numeric minimum. -/
lemma pyFoldBest_lt_num (a : ℚ) (l : List ℚ) :
    pyFoldBest pyLt (Value.num a) (l.map Value.num) =
      Except.ok (Value.num (l.foldl min a)) := by
  induction l generalizing a with
  | nil => rfl
  | cons q t ih =>
    simp only [List.map, pyFoldBest, pyLt, bind, Except.bind]
    have hsel : (if decide (q < a) = true then Value.num q else Value.num a) =
        Value.num (min a q) := by
      by_cases h : q < a
      · simp [h, min_eq_right h.le]
      · simp [h, min_eq_left (le_of_not_lt h)]
    rw [hsel, ih]
    rfl

/-- The `max` scan over a list of floats computes the numeric maximum. -/
lemma pyFoldBest_gt_num (a : ℚ) (l : List ℚ) :
    pyFoldBest pyGt (Value.num a) (l.map Value.num) =
      Except.ok (Value.num (l.foldl max a)) := by
  induction l generalizing a with
  | nil => rfl
  | cons q t ih =>
    simp only [List.map, pyFoldBest, pyGt, bind, Except.bind]
    have hsel : (if decide (a < q) = true then Value.num q else Value.num a) =
        Value.num (max a q) := by
      by_cases h : a < q
      · simp [h, max_eq_right h.le]
      · simp [h, max_eq_left (le_of_not_lt h)]
    rw [hsel, ih]
    rfl

/-- `pyMin` on a nonempty float list. -/
lemma pyMin_num (a : ℚ) (l : List ℚ) :
    pyMin ((a :: l).map Value.num) = Except.ok (Value.num (l.foldl min a)) :=
  pyFoldBest_lt_num a l

/-- `pyMax` on a nonempty float list. -/
lemma pyMax_num (a : ℚ) (l : List ℚ) :
    pyMax ((a :: l).map Value.num) = Except.ok (Value.num (l.foldl max a)) :=
  pyFoldBest_gt_num a l

/-- A successful strict comparison relates values of one kind. -/
lemma pyLt_ok_kind {x y : Value} {b : Bool} (h : pyLt x y = Except.ok b) :
    x.isNum = y.isNum := by
  cases x <;> cases y <;> simp [pyLt, Value.isNum] at h ⊢

/-- A successful strict comparison relates values of one kind. -/
lemma pyGt_ok_kind {x y : Value} {b : Bool} (h : pyGt x y = Except.ok b) :
    x.isNum = y.isNum := by
  cases x <;> cases y <;> simp [pyGt, Value.isNum] at h ⊢

/-- A successful scan visits only values of the kind of its result. -/
lemma pyFoldBest_ok_kind {cmp : Value → Value → Except PyExn Bool}
    (hcmp : ∀ x y b, cmp x y = Except.ok b → x.isNum = y.isNum) :
    ∀ (xs : List Value) (cur v : Value), pyFoldBest cmp cur xs = Except.ok v →
      v.isNum = cur.isNum ∧ ∀ x ∈ xs, x.isNum = cur.isNum := by
  intro xs
  induction xs with
  | nil =>
    intro cur v h
    simp only [pyFoldBest] at h
    cases h
    exact ⟨rfl, by simp⟩
  | cons x t ih =>
    intro cur v h
    simp only [pyFoldBest, bind, Except.bind] at h
    cases hc : cmp x cur with
    | error e => rw [hc] at h; cases h
    | ok b =>
      rw [hc] at h
      have hk : x.isNum = cur.isNum := hcmp x cur b hc
      have hcur : (if b then x else cur).isNum = cur.isNum := by
        cases b <;> simp [hk]
      obtain ⟨h1, h2⟩ := ih (if b then x else cur) v h
      refine ⟨h1.trans hcur, ?_⟩
      intro y hy
      rcases List.mem_cons.mp hy with hy | hy
      · exact hy ▸ hk
      · exact (h2 y hy).trans hcur

/-- A successful `pyMin` fixes the kind of every list element. -/
lemma pyMin_ok_kind {l : List Value} {v : Value} (h : pyMin l = Except.ok v) :
    ∀ x ∈ l, x.isNum = v.isNum := by
  cases l with
  | nil => simp [pyMin] at h
  | cons x t =>
    obtain ⟨h1, h2⟩ :=
      pyFoldBest_ok_kind (fun a c d hd => pyLt_ok_kind hd) t x v h
    intro y hy
    rcases List.mem_cons.mp hy with hy | hy
    · rw [hy, h1]
    · rw [h2 y hy, h1]

/-- A computed y-axis range certifies that every prediction in the list
was a float: every string (error-message) prediction makes
`calculate_y_axis_range` raise before returning. -/
lemma calculate_ok_all_num {l : List Value} {r : ℚ × ℚ}
    (h : calculate_y_axis_range l = Except.ok r) : ∀ v ∈ l, v.isNum = true := by
  cases l with
  | nil => simp [calculate_y_axis_range, pyMin, bind, Except.bind] at h
  | cons x t =>
    cases hmin : pyMin (x :: t) with
    | error e => simp [calculate_y_axis_range, hmin, bind, Except.bind] at h
    | ok m =>
      cases hmax : pyMax (x :: t) with
      | error e => simp [calculate_y_axis_range, hmin, hmax, bind, Except.bind] at h
      | ok M =>
        have hall : ∀ v ∈ x :: t, v.isNum = m.isNum := pyMin_ok_kind hmin
        suffices hm : m.isNum = true by
          intro v hv; rw [hall v hv, hm]
        cases m with
        | num q => rfl
        | str s =>
          exfalso
          simp only [calculate_y_axis_range, hmin, hmax, bind, Except.bind] at h
          cases M with
          | str s2 =>
            by_cases hse : pyEq (Value.str s) (Value.str s2) = true
            · rw [if_pos hse] at h
              simp [pyNeZero, pyPadding, bind, Except.bind] at h
            · rw [if_neg hse] at h
              cases h
          | num q =>
            have : pyEq (Value.str s) (Value.num q) = false := rfl
            rw [this] at h
            simp only [Bool.false_eq_true, if_false] at h
            split at h <;> cases h

/-- On a constant float list the all-equal branch runs: `±1` padding at
zero, otherwise 10 percent of the absolute value. -/
lemma calculate_const_num (v : ℚ) (l : List Value) (hl : ∀ u ∈ l, u = Value.num v) :
    calculate_y_axis_range (Value.num v :: l) =
      if v = 0 then Except.ok (v - 1, v + 1)
      else Except.ok (v - |v * (1 / 10)|, v + |v * (1 / 10)|) := by
  have hmin := pyMin_const (Value.num v) l hl
  have hmax := pyMax_const (Value.num v) l hl
  simp only [calculate_y_axis_range, hmin, hmax, bind, Except.bind, pyEq_refl, if_true]
  by_cases hv : v = 0
  · subst hv
    simp [pyNeZero, pySubFloat, pyAddFloat]
  · simp [pyNeZero, hv, pyPadding, pySubFloat, pyAddFloat]

/-- `floorLog10` really is the floor of the base-10 logarithm: for
positive `q` it is the unique exponent `m` with `10 ^ m ≤ q < 10 ^ (m+1)`. -/
lemma floorLog10_spec {q : ℚ} (hq : 0 < q) :
    (10 : ℚ) ^ floorLog10 q ≤ q ∧ q < (10 : ℚ) ^ (floorLog10 q + 1) := by
  unfold floorLog10
  by_cases h1 : 1 ≤ q
  · rw [if_pos h1]
    have hn1 : 1 ≤ ⌊q⌋₊ := Nat.le_floor (by exact_mod_cast h1)
    have hn0 : ⌊q⌋₊ ≠ 0 := by omega
    constructor
    · have hpow : (10 : ℕ) ^ Nat.log 10 ⌊q⌋₊ ≤ ⌊q⌋₊ := Nat.pow_log_le_self 10 hn0
      have hcast : ((10 : ℚ)) ^ (Nat.log 10 ⌊q⌋₊) ≤ (⌊q⌋₊ : ℚ) := by exact_mod_cast hpow
      have hfl : ((⌊q⌋₊ : ℚ)) ≤ q := Nat.floor_le hq.le
      rw [zpow_natCast]
      exact hcast.trans hfl
    · have h2 : ⌊q⌋₊ < 10 ^ (Nat.log 10 ⌊q⌋₊ + 1) := Nat.lt_pow_succ_log_self (by norm_num) _
      have h3 : q < (⌊q⌋₊ : ℚ) + 1 := Nat.lt_floor_add_one q
      have h4 : ((⌊q⌋₊ : ℚ)) + 1 ≤ (10 : ℚ) ^ (Nat.log 10 ⌊q⌋₊ + 1) := by
        exact_mod_cast Nat.succ_le_of_lt h2
      have h5 : q < (10 : ℚ) ^ (Nat.log 10 ⌊q⌋₊ + 1) := lt_of_lt_of_le h3 h4
      rw [show ((Nat.log 10 ⌊q⌋₊ : ℤ) + 1) = ((Nat.log 10 ⌊q⌋₊ + 1 : ℕ) : ℤ) by push_cast; ring,
        zpow_natCast]
      exact h5
  · rw [if_neg h1]
    push_neg at h1
    have hq1 : 1 < q⁻¹ := by
      rw [lt_inv_comm₀ (by norm_num) hq]
      simpa using h1
    have hm2 : 2 ≤ ⌈q⁻¹⌉₊ := by
      have : 1 < ⌈q⁻¹⌉₊ := Nat.lt_ceil.mpr (by exact_mod_cast hq1)
      omega
    have hk1 : 1 ≤ Nat.clog 10 ⌈q⁻¹⌉₊ := Nat.clog_pos (by norm_num) hm2
    constructor
    · have hle : q⁻¹ ≤ (⌈q⁻¹⌉₊ : ℚ) := Nat.le_ceil _
      have hm10 : (⌈q⁻¹⌉₊ : ℕ) ≤ 10 ^ Nat.clog 10 ⌈q⁻¹⌉₊ := Nat.le_pow_clog (by norm_num) _
      have hgoal : q⁻¹ ≤ (10 : ℚ) ^ (Nat.clog 10 ⌈q⁻¹⌉₊) :=
        hle.trans (by exact_mod_cast hm10)
      rw [zpow_neg, zpow_natCast]
      calc ((10 : ℚ) ^ Nat.clog 10 ⌈q⁻¹⌉₊)⁻¹ ≤ (q⁻¹)⁻¹ :=
            inv_anti₀ (inv_pos.mpr hq) hgoal
        _ = q := inv_inv q
    · have hkm : (10 : ℕ) ^ (Nat.clog 10 ⌈q⁻¹⌉₊ - 1) < ⌈q⁻¹⌉₊ :=
        Nat.pow_pred_clog_lt_self (by norm_num) (by omega)
      have hceil : (⌈q⁻¹⌉₊ : ℚ) < q⁻¹ + 1 := Nat.ceil_lt_add_one (by positivity)
      have h5 : ((10 : ℚ) ^ (Nat.clog 10 ⌈q⁻¹⌉₊ - 1 : ℕ)) + 1 ≤ (⌈q⁻¹⌉₊ : ℚ) := by
        exact_mod_cast Nat.succ_le_of_lt hkm
      have h6 : ((10 : ℚ) ^ (Nat.clog 10 ⌈q⁻¹⌉₊ - 1 : ℕ)) < q⁻¹ := by linarith
      have h7 : q < ((10 : ℚ) ^ (Nat.clog 10 ⌈q⁻¹⌉₊ - 1 : ℕ))⁻¹ := by
        have h8 := inv_strictAnti₀ (by positivity) h6
        rwa [inv_inv] at h8
      rw [show (-(Nat.clog 10 ⌈q⁻¹⌉₊ : ℤ) + 1) = -((Nat.clog 10 ⌈q⁻¹⌉₊ - 1 : ℕ) : ℤ) by
        push_cast [Nat.cast_sub hk1]; ring]
      rw [zpow_neg, zpow_natCast]
      exact h7

end Helpers

/-- C1: for a prediction list whose minimum and maximum differ and whose
maximum is positive, the y-axis range uses `magnitude = floor(log10 max)`
(characterised by `10 ^ m ≤ max < 10 ^ (m+1)`), `unit = 10 ^ (magnitude - 1)`,
the minimum rounded down and the maximum rounded up to multiples of `unit`,
and moves both bounds outward by one more `unit` if the rounding made them
equal. -/
theorem C1_y_axis_range_distinct (a : ℚ) (l : List ℚ)
    (hne : l.foldl min a ≠ l.foldl max a) (hpos : 0 < l.foldl max a) :
    ((10 : ℚ) ^ floorLog10 (l.foldl max a) ≤ l.foldl max a ∧
      l.foldl max a < (10 : ℚ) ^ (floorLog10 (l.foldl max a) + 1)) ∧
    calculate_y_axis_range ((a :: l).map Value.num) =
      (let unit : ℚ := (10 : ℚ) ^ (floorLog10 (l.foldl max a) - 1)
       let y0 : ℚ := (⌊l.foldl min a / unit⌋ : ℚ) * unit
       let y1 : ℚ := (⌈l.foldl max a / unit⌉ : ℚ) * unit
       if y0 = y1 then Except.ok (y0 - unit, y1 + unit) else Except.ok (y0, y1)) := by
  refine ⟨floorLog10_spec hpos, ?_⟩
  have hne' : pyEq (Value.num (l.foldl min a)) (Value.num (l.foldl max a)) = false := by
    simp [pyEq, hne]
  simp only [calculate_y_axis_range, pyMin_num, pyMax_num, bind, Except.bind, hne',
    Bool.false_eq_true, if_false, if_neg (not_le.mpr hpos)]

/-- C1 witness: on the values `[950, 1050]` the range is `(900, 1100)`. -/
theorem C1_y_axis_range_distinct_witness :
    calculate_y_axis_range [Value.num 950, Value.num 1050] = Except.ok (900, 1100) := by
  have h := (C1_y_axis_range_distinct 950 [1050] (by norm_num) (by norm_num)).2
  simp only [List.map, List.foldl] at h
  rw [show max (950 : ℚ) 1050 = 1050 from max_eq_right (by norm_num),
    show min (950 : ℚ) 1050 = 950 from min_eq_left (by norm_num)] at h
  have hlog : floorLog10 1050 = 3 := by
    unfold floorLog10
    rw [if_pos (by norm_num), show ⌊(1050 : ℚ)⌋₊ = 1050 by norm_num,
      @Nat.log_eq_of_pow_le_of_lt_pow 10 3 1050 (by norm_num) (by norm_num)]
    rfl
  have hc : (⌈(21 / 2 : ℚ)⌉ : ℤ) = 11 := by norm_num [Int.ceil_eq_iff]
  rw [h]
  norm_num [hlog, hc]

/-- C2: on a non-empty prediction list with every value equal to `v`, the
range is `(v - 0.1 * abs v, v + 0.1 * abs v)` for nonzero `v` and
`(-1, 1)` for `v = 0`. -/
theorem C2_y_axis_range_all_equal (v : ℚ) (l : List Value) (hne : l ≠ [])
    (hl : ∀ u ∈ l, u = Value.num v) :
    calculate_y_axis_range l =
      if v = 0 then Except.ok (-1, 1)
      else Except.ok (v - |v| / 10, v + |v| / 10) := by
  obtain ⟨x, t, rfl⟩ := List.exists_cons_of_ne_nil hne
  have hx : x = Value.num v := hl x (by simp)
  subst hx
  rw [calculate_const_num v t fun u hu => hl u (by simp [hu])]
  have habs : |v * (1 / 10)| = |v| / 10 := by
    rw [abs_mul, abs_of_pos (show (0 : ℚ) < 1 / 10 by norm_num)]
    ring
  by_cases hv : v = 0
  · subst hv; norm_num
  · rw [if_neg hv, if_neg hv, habs]

/-- C2 witness: `[100, 100, 100]` yields `(90, 110)` and `[0, 0, 0]`
yields `(-1, 1)`. -/
theorem C2_y_axis_range_all_equal_witness :
    calculate_y_axis_range [Value.num 100, Value.num 100, Value.num 100] =
        Except.ok (90, 110) ∧
      calculate_y_axis_range [Value.num 0, Value.num 0, Value.num 0] =
        Except.ok (-1, 1) := by
  constructor
  · have h := C2_y_axis_range_all_equal 100
      [Value.num 100, Value.num 100, Value.num 100] (by simp)
      (by intro u hu; fin_cases hu <;> rfl)
    rw [h]
    norm_num
  · have h := C2_y_axis_range_all_equal 0
      [Value.num 0, Value.num 0, Value.num 0] (by simp)
      (by intro u hu; fin_cases hu <;> rfl)
    rw [h]
    norm_num

/-- C7: the geo-distance function is a pure function of its four
coordinates, it is symmetric under swapping the two points (exact equality,
hence within any tolerance), and the distance from a point to itself is
zero. -/
theorem C7_haversine_symmetric_zero :
    (∀ lon1 lat1 lon2 lat2 : ℝ,
        haversine lon1 lat1 lon2 lat2 = haversine lon2 lat2 lon1 lat1) ∧
    (∀ lon lat : ℝ, haversine lon lat lon lat = 0) := by
  constructor
  · intro lon1 lat1 lon2 lat2
    unfold haversine
    dsimp only
    have hsin : ∀ x y : ℝ, Real.sin ((x - y) / 2) ^ 2 = Real.sin ((y - x) / 2) ^ 2 := by
      intro x y
      rw [show (x - y) / 2 = -((y - x) / 2) by ring, Real.sin_neg, neg_sq]
    rw [hsin (lat2 * Real.pi / 180) (lat1 * Real.pi / 180),
      hsin (lon2 * Real.pi / 180) (lon1 * Real.pi / 180),
      mul_comm (Real.cos (lat1 * Real.pi / 180)) (Real.cos (lat2 * Real.pi / 180))]
  · intro lon lat
    unfold haversine
    dsimp only
    simp [sub_self]

/-- The scan underlying `find_closest_metro` returns the first element of
minimal distance: it splits the scanned list around the result, with every
element strictly farther before the result and the result no farther than
anything in the list. -/
lemma closestScan_spec (d : Metro → ℝ) :
    ∀ (xs : List Metro) (cur : Metro),
      ∃ l1 l2, cur :: xs = l1 ++ closestScan d cur xs :: l2 ∧
        (∀ p ∈ cur :: xs, d (closestScan d cur xs) ≤ d p) ∧
        (∀ p ∈ l1, d (closestScan d cur xs) < d p) := by
  intro xs
  induction xs with
  | nil =>
    intro cur
    exact ⟨[], [], rfl, by simp [closestScan], by simp⟩
  | cons x t ih =>
    intro cur
    by_cases h : d x < d cur
    · rw [show closestScan d cur (x :: t) = closestScan d x t by
        rw [closestScan, if_pos h]]
      obtain ⟨l1, l2, hsplit, hall, hbef⟩ := ih x
      have hrx : d (closestScan d x t) ≤ d x := hall x (by simp)
      refine ⟨cur :: l1, l2, ?_, ?_, ?_⟩
      · rw [List.cons_append, ← hsplit]
      · intro p hp
        rcases List.mem_cons.mp hp with rfl | hp
        · exact hrx.trans h.le
        · exact hall p hp
      · intro p hp
        rcases List.mem_cons.mp hp with rfl | hp
        · exact lt_of_le_of_lt hrx h
        · exact hbef p hp
    · rw [show closestScan d cur (x :: t) = closestScan d cur t by
        rw [closestScan, if_neg h]]
      obtain ⟨l1, l2, hsplit, hall, hbef⟩ := ih cur
      have hcx : d cur ≤ d x := le_of_not_lt h
      have hrc : d (closestScan d cur t) ≤ d cur := hall cur (by simp)
      cases l1 with
      | nil =>
        simp only [List.nil_append] at hsplit
        have hrcur : closestScan d cur t = cur := by
          have := List.head_eq_of_cons_eq hsplit.symm
          exact this
        refine ⟨[], x :: t, ?_, ?_, by simp⟩
        · simp only [List.nil_append, hrcur]
        · intro p hp
          rcases List.mem_cons.mp hp with rfl | hp
          · exact hrc
          · rcases List.mem_cons.mp hp with rfl | hp
            · exact hrc.trans hcx
            · exact hall p (by simp [hp])
      | cons c l1t =>
        have hc : c = cur := (List.head_eq_of_cons_eq hsplit).symm
        have ht : t = l1t ++ closestScan d cur t :: l2 :=
          List.tail_eq_of_cons_eq hsplit
        refine ⟨cur :: x :: l1t, l2, ?_, ?_, ?_⟩
        · rw [List.cons_append, List.cons_append, ← ht]
        · intro p hp
          rcases List.mem_cons.mp hp with rfl | hp
          · exact hrc
          · rcases List.mem_cons.mp hp with rfl | hp
            · exact hrc.trans hcx
            · exact hall p (by simp [hp])
        · intro p hp
          have hccur : d (closestScan d cur t) < d cur := by
            have := hbef c (by simp)
            rwa [hc] at this
          rcases List.mem_cons.mp hp with rfl | hp
          · exact hccur
          · rcases List.mem_cons.mp hp with rfl | hp
            · exact lt_of_lt_of_le hccur hcx
            · exact hbef p (by simp [hp])

/-- C6: on a non-empty store, `find_closest_metro` returns a stored point
of minimal haversine distance to the query, and every point stored before
it is strictly farther (the first point in iteration order wins ties). -/
theorem C6_find_closest_metro_first_argmin (store : List Metro) (user_lat user_lon : ℚ)
    (h : store ≠ []) :
    ∃ p l1 l2, find_closest_metro store user_lat user_lon = some p ∧
      store = l1 ++ p :: l2 ∧
      (∀ q ∈ store, metroDistance user_lat user_lon p ≤ metroDistance user_lat user_lon q) ∧
      (∀ q ∈ l1, metroDistance user_lat user_lon p < metroDistance user_lat user_lon q) := by
  obtain ⟨m, ms, rfl⟩ := List.exists_cons_of_ne_nil h
  obtain ⟨l1, l2, hsplit, hall, hbef⟩ :=
    closestScan_spec (metroDistance user_lat user_lon) ms m
  exact ⟨_, l1, l2, rfl, hsplit, hall, hbef⟩

/-- Monotonicity of the final distance computation in the haversine
intermediate `a`. -/
lemma haversine_core_mono {a1 a2 : ℝ} (h12 : a1 ≤ a2) :
    2 * Real.arcsin (Real.sqrt a1) * 6371 ≤ 2 * Real.arcsin (Real.sqrt a2) * 6371 := by
  have hs : Real.sqrt a1 ≤ Real.sqrt a2 := Real.sqrt_le_sqrt h12
  have ha : Real.arcsin (Real.sqrt a1) ≤ Real.arcsin (Real.sqrt a2) :=
    Real.monotone_arcsin hs
  linarith

/-- The query point `(1, 1)` is closer to `P1 = (0, 0)` than to
`P2 = (10, 10)` under the haversine distance. -/
lemma dist_P1_le_P2 :
    metroDistance 1 1 (⟨"P1", 0, 0⟩ : Metro) ≤ metroDistance 1 1 (⟨"P2", 10, 10⟩ : Metro) := by
  unfold metroDistance haversine
  dsimp only
  push_cast
  rw [show ((0 : ℝ) * Real.pi / 180 - 1 * Real.pi / 180) / 2 = -(Real.pi / 360) by ring,
    show ((10 : ℝ) * Real.pi / 180 - 1 * Real.pi / 180) / 2 = Real.pi / 40 by ring,
    show (1 : ℝ) * Real.pi / 180 = Real.pi / 180 by ring,
    show (0 : ℝ) * Real.pi / 180 = 0 by ring,
    show (10 : ℝ) * Real.pi / 180 = Real.pi / 18 by ring,
    Real.sin_neg, neg_sq, Real.cos_zero, mul_one]
  apply haversine_core_mono
  have hp1 : (3.14 : ℝ) < Real.pi := Real.pi_gt_d2
  have hp2 : Real.pi < 3.15 := Real.pi_lt_d2
  have hpi : (0 : ℝ) < Real.pi := Real.pi_pos
  have hs360pos : 0 ≤ Real.sin (Real.pi / 360) :=
    Real.sin_nonneg_of_nonneg_of_le_pi (by positivity) (by nlinarith)
  have hs360le : Real.sin (Real.pi / 360) ≤ Real.pi / 360 :=
    le_of_lt (Real.sin_lt (by positivity))
  have hsq1 : Real.sin (Real.pi / 360) ^ 2 ≤ (Real.pi / 360) ^ 2 :=
    pow_le_pow_left₀ hs360pos hs360le 2
  have hb1 : Real.sin (Real.pi / 360) ^ 2 ≤ 0.0000766 := by nlinarith
  have hcos180le : Real.cos (Real.pi / 180) ≤ 1 := Real.cos_le_one _
  have hcos180ge : 0 ≤ Real.cos (Real.pi / 180) :=
    Real.cos_nonneg_of_mem_Icc ⟨by nlinarith, by nlinarith⟩
  have hcos18ge : 0 ≤ Real.cos (Real.pi / 18) :=
    Real.cos_nonneg_of_mem_Icc ⟨by nlinarith, by nlinarith⟩
  have hq40 : Real.pi / 40 ≤ 0.07875 := by nlinarith
  have hcube : (Real.pi / 40) ^ 3 ≤ 0.07875 ^ 3 :=
    pow_le_pow_left₀ (by positivity) hq40 3
  have hs40gt : Real.pi / 40 - (Real.pi / 40) ^ 3 / 4 < Real.sin (Real.pi / 40) :=
    Real.sin_gt_sub_cube (by positivity) (by nlinarith)
  have hs40lb : (0.078 : ℝ) ≤ Real.sin (Real.pi / 40) := by nlinarith
  have hs40pos : 0 ≤ Real.sin (Real.pi / 40) := by linarith
  have hb2 : (0.006 : ℝ) ≤ Real.sin (Real.pi / 40) ^ 2 := by nlinarith
  nlinarith [sq_nonneg (Real.sin (Real.pi / 40)),
    mul_nonneg (mul_nonneg hcos180ge hcos18ge) (sq_nonneg (Real.sin (Real.pi / 40)))]

/-- C6 witness: the two-point store queried at `(1, 1)` yields `P1`. -/
theorem C6_find_closest_metro_first_argmin_witness :
    twoPointStore ≠ [] ∧
      find_closest_metro twoPointStore 1 1 = some ⟨"P1", 0, 0⟩ := by
  refine ⟨by simp [twoPointStore], ?_⟩
  obtain ⟨p, l1, l2, hfind, hsplit, hall, hbef⟩ :=
    C6_find_closest_metro_first_argmin twoPointStore 1 1 (by simp [twoPointStore])
  have hp1 : p = ⟨"P1", 0, 0⟩ := by
    cases l1 with
    | nil =>
      simp only [List.nil_append, twoPointStore] at hsplit
      exact (List.head_eq_of_cons_eq hsplit).symm
    | cons c l1t =>
      exfalso
      have hc : c = ⟨"P1", 0, 0⟩ := by
        simp only [twoPointStore, List.cons_append] at hsplit
        exact (List.head_eq_of_cons_eq hsplit).symm
      cases l1t with
      | nil =>
        have hp2 : p = ⟨"P2", 10, 10⟩ := by
          simp only [twoPointStore, List.cons_append, List.nil_append] at hsplit
          have := List.tail_eq_of_cons_eq hsplit
          exact (List.head_eq_of_cons_eq this).symm
        have hlt := hbef c (by simp)
        rw [hc, hp2] at hlt
        exact absurd dist_P1_le_P2 (not_le.mpr hlt)
      | cons c2 l1t2 =>
        have := congrArg List.length hsplit
        simp [twoPointStore] at this
  rw [← hp1]
  exact hfind

/-- C8: with an empty reference store, `find_closest_metro` returns no
point, and the request surfaces the dedicated empty-store error message
(the `ValueError` raised when the lookup returns `None`), not any other
failure kind. -/
theorem C8_empty_store_error (env : ModelEnv) (user_lat user_lon : ℚ)
    (rooms current_year : ℤ) :
    find_closest_metro [] user_lat user_lon = none ∧
      index_response [] env user_lat user_lon rooms current_year =
        Response.err "Error: Could not find closest metro. Check data file." :=
  ⟨rfl, rfl⟩

/-- C10: `get_prediction` never propagates an exception: a successful body
returns its value, and each failing body is converted to the
corresponding human-readable message string returned as the ordinary
result, so a caller that asked for `raw_output=True` can receive a string
(as the final conjunct exhibits) and cannot tell success from failure by
exception. -/
theorem C10_get_prediction_never_raises (env : ModelEnv) (input_df : Row)
    (raw_output : Bool) :
    (∀ v, get_prediction_body env input_df raw_output = Except.ok v →
        get_prediction env input_df raw_output = v) ∧
    (∀ f, get_prediction_body env input_df raw_output =
          Except.error (PyExn.fileNotFound f) →
        get_prediction env input_df raw_output = Value.str (fileNotFoundMessage f)) ∧
    (∀ m, get_prediction_body env input_df raw_output = Except.error (PyExn.other m) →
        get_prediction env input_df raw_output = Value.str (unexpectedErrorMessage m)) ∧
    (∃ env0 df0, get_prediction env0 df0 true =
        Value.str (fileNotFoundMessage "scaler.joblib")) := by
  refine ⟨?_, ?_, ?_, ⟨missingScalerEnv, [], rfl⟩⟩
  · intro v h
    simp [get_prediction, h]
  · intro f h
    simp [get_prediction, h]
  · intro m h
    simp [get_prediction, h]

/-- C10 witness: with `scaler.joblib` missing and raw output requested,
the result is the error-message string. -/
theorem C10_get_prediction_never_raises_witness :
    get_prediction missingScalerEnv [] true =
      Value.str (fileNotFoundMessage "scaler.joblib") :=
  (C10_get_prediction_never_raises missingScalerEnv [] true).2.1 "scaler.joblib" rfl

/-- C4 (code bug): with exactly one artifact file missing
(`scaler.joblib`), `get_prediction` only returns the message string
naming the file; the projection request then treats the four identical
message strings as predictions, `calculate_y_axis_range` raises a
`TypeError` on them, and the failure surfaced to the user is the generic
type error, which does not name the missing file. -/
theorem C4_missing_artifact_surfaces_generic_error :
    get_prediction missingScalerEnv (mkInputRow "Central" 1 0 0 0 0 1) true =
        Value.str (fileNotFoundMessage "scaler.joblib") ∧
      index_response oneMetroStore missingScalerEnv 0 0 1 1 =
        Response.err "Error: TypeError: cannot multiply sequence by non-int of type float" := by
  refine ⟨rfl, ?_⟩
  have hstep : handleProjection oneMetroStore missingScalerEnv 0 0 1 1 =
      Except.bind (calculate_y_axis_range
          (List.replicate 4 (Value.str (fileNotFoundMessage "scaler.joblib"))))
        (fun range => Except.ok
          ⟨["1", "2", "3", "4"],
            List.replicate 4 (Value.str (fileNotFoundMessage "scaler.joblib")),
            range.1, range.2⟩) := rfl
  have hcalc : calculate_y_axis_range
      (List.replicate 4 (Value.str (fileNotFoundMessage "scaler.joblib"))) =
      Except.error
        (PyExn.other "TypeError: cannot multiply sequence by non-int of type float") := by
    have hmin := pyMin_const (Value.str (fileNotFoundMessage "scaler.joblib"))
      (List.replicate 3 (Value.str (fileNotFoundMessage "scaler.joblib")))
      (by intro u hu; exact List.eq_of_mem_replicate hu)
    have hmax := pyMax_const (Value.str (fileNotFoundMessage "scaler.joblib"))
      (List.replicate 3 (Value.str (fileNotFoundMessage "scaler.joblib")))
      (by intro u hu; exact List.eq_of_mem_replicate hu)
    simp only [show (List.replicate 4 (Value.str (fileNotFoundMessage "scaler.joblib"))) =
        Value.str (fileNotFoundMessage "scaler.joblib") ::
          List.replicate 3 (Value.str (fileNotFoundMessage "scaler.joblib")) from rfl,
      calculate_y_axis_range, hmin, hmax, bind, Except.bind, pyEq_refl, if_true]
    rfl
  unfold index_response
  rw [hstep, hcalc]
  rfl

/-- Inverting a successful projection response: it can only arise from a
successful metro lookup and a successful y-axis computation over the four
per-year predictions, and the projection dictionary is exactly the one
assembled from them. -/
lemma index_response_data_inversion {store : List Metro} {env : ModelEnv}
    {user_lat user_lon : ℚ} {rooms current_year : ℤ} {p : ProjectionData}
    (h : index_response store env user_lat user_lon rooms current_year =
      Response.data p) :
    ∃ c r, find_closest_metro store user_lat user_lon = some c ∧
      calculate_y_axis_range ((yearRange current_year).map fun year =>
        get_prediction env
          (mkInputRow c.name rooms user_lat user_lon c.latitude c.longitude year)
          true) = Except.ok r ∧
      p = ⟨(yearRange current_year).map (fun y => toString y),
           (yearRange current_year).map (fun year =>
             get_prediction env
               (mkInputRow c.name rooms user_lat user_lon c.latitude c.longitude year)
               true),
           r.1, r.2⟩ := by
  unfold index_response at h
  cases hh : handleProjection store env user_lat user_lon rooms current_year with
  | error e => rw [hh] at h; cases h
  | ok p0 =>
    rw [hh] at h
    cases h
    unfold handleProjection at hh
    cases hf : find_closest_metro store user_lat user_lon with
    | none =>
      rw [hf] at hh
      simp only [bind, Except.bind] at hh
      cases hh
    | some c =>
      rw [hf] at hh
      simp only [bind, Except.bind] at hh
      cases hc : calculate_y_axis_range ((yearRange current_year).map fun year =>
          get_prediction env
            (mkInputRow c.name rooms user_lat user_lon c.latitude c.longitude year)
            true) with
      | error e => rw [hc] at hh; cases hh
      | ok r =>
        rw [hc] at hh
        injection hh with hh
        exact ⟨c, r, rfl, hc, hh.symm⟩

/-- C5: a projection request is all-or-nothing: the response is either a
bare error message, or a complete projection built from a successful
lookup whose four values are all successful numeric predictions — never a
partial mixture.  (Totality of `index_response` is the never-crash part:
every exception is converted to the error response.) -/
theorem C5_all_or_nothing (store : List Metro) (env : ModelEnv)
    (user_lat user_lon : ℚ) (rooms current_year : ℤ) :
    (∃ msg, index_response store env user_lat user_lon rooms current_year =
        Response.err msg) ∨
    (∃ p c, index_response store env user_lat user_lon rooms current_year =
        Response.data p ∧
      find_closest_metro store user_lat user_lon = some c ∧
      p.labels = (yearRange current_year).map (fun y => toString y) ∧
      p.values = (yearRange current_year).map (fun year =>
        get_prediction env
          (mkInputRow c.name rooms user_lat user_lon c.latitude c.longitude year)
          true) ∧
      (∀ v ∈ p.values, v.isNum = true)) := by
  cases hr : index_response store env user_lat user_lon rooms current_year with
  | err msg => exact Or.inl ⟨msg, rfl⟩
  | data p =>
    right
    obtain ⟨c, r, hf, hc, hp⟩ := index_response_data_inversion hr
    subst hp
    exact ⟨_, c, rfl, hf, rfl, rfl, fun v hv => calculate_ok_all_num hc v hv⟩

/-- C3: every successful projection has exactly 4 labels and 4 values;
label `i` names the year `current_year + i` and value `i` is the
prediction obtained for exactly that year (index-aligned). -/
theorem C3_projection_shape (store : List Metro) (env : ModelEnv)
    (user_lat user_lon : ℚ) (rooms current_year : ℤ) (p : ProjectionData)
    (h : index_response store env user_lat user_lon rooms current_year =
      Response.data p) :
    p.labels.length = 4 ∧ p.values.length = 4 ∧
    ∃ c, find_closest_metro store user_lat user_lon = some c ∧
      ∀ i : ℕ, i < 4 →
        p.labels[i]? = some (toString (current_year + (i : ℤ))) ∧
        p.values[i]? = some (get_prediction env
          (mkInputRow c.name rooms user_lat user_lon c.latitude c.longitude
            (current_year + (i : ℤ))) true) := by
  obtain ⟨c, r, hf, hc, hp⟩ := index_response_data_inversion h
  subst hp
  refine ⟨rfl, rfl, c, hf, ?_⟩
  intro i hi
  interval_cases i <;> exact ⟨rfl, rfl⟩

/-- C3 witness: a concrete successful request (one-station store, fully
stocked model directory, current year 1) yields 4 labels and 4 values. -/
theorem C3_projection_shape_witness :
    ∃ p, index_response oneMetroStore oracleEnv 0 0 1 1 = Response.data p ∧
      p.labels.length = 4 ∧ p.values.length = 4 := by
  have hstep : handleProjection oneMetroStore oracleEnv 0 0 1 1 =
      Except.bind
        (calculate_y_axis_range [Value.num 0, Value.num 0, Value.num 0, Value.num 0])
        (fun range => Except.ok ⟨["1", "2", "3", "4"],
          [Value.num 0, Value.num 0, Value.num 0, Value.num 0],
          range.1, range.2⟩) := rfl
  have hcalc : calculate_y_axis_range
      [Value.num 0, Value.num 0, Value.num 0, Value.num 0] = Except.ok (-1, 1) := by
    rw [calculate_const_num 0 _ (by intro u hu; fin_cases hu <;> rfl)]
    norm_num
  have h : index_response oneMetroStore oracleEnv 0 0 1 1 = Response.data
      ⟨["1", "2", "3", "4"],
        [Value.num 0, Value.num 0, Value.num 0, Value.num 0], -1, 1⟩ := by
    unfold index_response
    rw [hstep, hcalc]
    rfl
  obtain ⟨h1, h2, -⟩ := C3_projection_shape oneMetroStore oracleEnv 0 0 1 1 _ h
  exact ⟨_, h, h1, h2⟩

/-- Looking a column up in a concatenation: the left block wins. -/
lemma lookupCol_append (r1 r2 : Row) (c : String) :
    lookupCol (r1 ++ r2) c =
      match lookupCol r1 c with
      | some v => some v
      | none => lookupCol r2 c := by
  induction r1 with
  | nil => simp [lookupCol]
  | cons p t ih =>
    obtain ⟨k, v⟩ := p
    simp only [List.cons_append, lookupCol]
    by_cases h : k = c
    · simp [h]
    · simp [h, ih]

/-- Where the safety-net fill leaves each column: columns in the expected
list become present with their original value, or `0` if they were
absent; other columns are untouched. -/
lemma lookupCol_fillCols (cols : List String) (row : Row) (c : String) :
    lookupCol (fillCols row cols) c =
      if c ∈ cols then some ((lookupCol row c).getD (Value.num 0))
      else lookupCol row c := by
  induction cols generalizing row with
  | nil => simp [fillCols]
  | cons c0 cs ih =>
    simp only [fillCols]
    by_cases h0 : (lookupCol row c0).isSome
    · rw [if_pos h0, ih row]
      by_cases hc : c ∈ cs
      · rw [if_pos hc, if_pos (by simp [hc])]
      · rw [if_neg hc]
        by_cases hcc : c = c0
        · subst hcc
          rw [if_pos (by simp)]
          obtain ⟨v, hv⟩ := Option.isSome_iff_exists.mp h0
          rw [hv]
          rfl
        · rw [if_neg (by simp [hcc, hc])]
    · rw [if_neg h0, ih]
      have hnone : lookupCol row c0 = none := Option.not_isSome_iff_eq_none.mp h0
      have hrow : lookupCol (row ++ [(c0, Value.num 0)]) c =
          if c = c0 then some (Value.num 0) else lookupCol row c := by
        rw [lookupCol_append]
        by_cases hcc : c = c0
        · subst hcc
          rw [hnone]
          simp [lookupCol]
        · have hne : ¬c0 = c := fun h => hcc h.symm
          have hsing : lookupCol [(c0, Value.num 0)] c = none := by
            simp [lookupCol, hne]
          rw [hsing]
          cases hlk : lookupCol row c <;> simp [hcc]
      by_cases hc : c ∈ cs
      · rw [if_pos hc, if_pos (by simp [hc]), hrow]
        by_cases hcc : c = c0
        · subst hcc
          rw [if_pos rfl, hnone]
          rfl
        · rw [if_neg hcc]
      · rw [if_neg hc, hrow]
        by_cases hcc : c = c0
        · subst hcc
          rw [if_pos rfl, if_pos (by simp), hnone]
          rfl
        · rw [if_neg hcc, if_neg (by simp [hcc, hc])]

/-- Column selection succeeds and returns the looked-up values when every
requested column is present. -/
lemma selectCols_all_present (row : Row) (cols : List String) (f : String → Value)
    (h : ∀ c ∈ cols, lookupCol row c = some (f c)) :
    selectCols row cols = Except.ok (cols.map f) := by
  induction cols with
  | nil => rfl
  | cons c cs ih =>
    have hc := h c (by simp)
    have hcs := ih fun c2 hc2 => h c2 (by simp [hc2])
    simp only [selectCols] at hcs ⊢
    rw [List.mapM_cons, hc]
    simp only [bind, Except.bind, hcs, List.map, pure, Except.pure]

/-- After the safety-net fill, selecting the expected columns cannot raise
`KeyError`: it returns each original value, with absent columns read as
`0`. -/
lemma selectCols_fillCols (row : Row) (cols : List String) :
    selectCols (fillCols row cols) cols =
      Except.ok (cols.map fun c => (lookupCol row c).getD (Value.num 0)) :=
  selectCols_all_present _ _ _ fun c hc => by
    rw [lookupCol_fillCols, if_pos hc]

/-- What `setCol` does to a lookup: the value changes only on the
assigned column, and no column appears or disappears. -/
lemma lookupCol_setCol (r : Row) (k : String) (v : Value) (c : String) :
    lookupCol (setCol r k v) c =
      Option.map (fun v0 => if k = c then v else v0) (lookupCol r c) := by
  induction r with
  | nil => rfl
  | cons p t ih =>
    obtain ⟨k0, v0⟩ := p
    simp only [setCol, List.map] at ih ⊢
    by_cases h : k0 = k
    · subst h
      rw [if_pos rfl]
      simp only [lookupCol]
      by_cases hc : k0 = c
      · subst hc
        rw [if_pos rfl, if_pos rfl]
        simp
      · rw [if_neg hc, if_neg hc]
        exact ih
    · rw [if_neg h]
      simp only [lookupCol]
      by_cases hc : k0 = c
      · subst hc
        rw [if_pos rfl, if_pos rfl]
        have hkc : ¬k = k0 := fun hh => h hh.symm
        simp [hkc]
      · rw [if_neg hc, if_neg hc]
        exact ih

/-- `setCol` never adds or removes a column. -/
lemma isSome_lookupCol_setCol (r : Row) (k : String) (v : Value) (c : String) :
    (lookupCol (setCol r k v) c).isSome = (lookupCol r c).isSome := by
  rw [lookupCol_setCol]
  cases lookupCol r c <;> simp

/-- Assigning scaled values back never adds or removes a column. -/
lemma isSome_lookupCol_assignCols (ps : List (String × Value)) (r : Row) (c : String) :
    (lookupCol (ps.foldl (fun acc p => setCol acc p.1 p.2) r) c).isSome =
      (lookupCol r c).isSome := by
  induction ps generalizing r with
  | nil => rfl
  | cons p t ih =>
    simp only [List.foldl]
    rw [ih, isSome_lookupCol_setCol]

/-- Every column that the scaler expected, or that the input row carried,
is present in the processed frame handed to the base models. -/
lemma isSome_lookupCol_processed (row : Row) (nc : List String) (w : List Value)
    (c : String) (h : c ∈ nc ∨ (lookupCol row c).isSome) :
    (lookupCol (assignCols (fillCols row nc) nc w) c).isSome := by
  unfold assignCols
  rw [isSome_lookupCol_assignCols, lookupCol_fillCols]
  rcases h with h | h
  · simp [h]
  · by_cases hc : c ∈ nc
    · simp [hc]
    · simpa [hc]

/-- Column selection succeeds when every requested column is present. -/
lemma selectCols_ok_of_isSome (r : Row) (cols : List String)
    (h : ∀ c ∈ cols, (lookupCol r c).isSome) :
    ∃ vs, selectCols r cols = Except.ok vs := by
  induction cols with
  | nil => exact ⟨[], rfl⟩
  | cons c cs ih =>
    obtain ⟨v, hv⟩ := Option.isSome_iff_exists.mp (h c (by simp))
    obtain ⟨vs, hvs⟩ := ih fun c2 hc2 => h c2 (by simp [hc2])
    refine ⟨v :: vs, ?_⟩
    simp only [selectCols] at hvs ⊢
    rw [List.mapM_cons, hv]
    simp only [bind, Except.bind, hvs, pure, Except.pure]

/-- C9: every column the scaler expects but the input row lacks is filled
with the neutral default `0` before scaling (columns already present keep
their values), so selecting the scaler columns cannot raise `KeyError`;
and when the artifacts themselves behave (files present, transform and
regressors succeed on well-formed input), the prediction completes with a
numeric result despite the missing columns. -/
theorem C9_missing_columns_filled (env : ModelEnv) (row : Row)
    (hscale : env.scaledFeaturesList ≠ [])
    (hfiles : ∀ f ∈ artifactFiles, f ∈ env.files)
    (htrans : ∀ vs, ∃ w, env.transform vs = Except.ok w)
    (hbase : ∀ n vs, ∃ q, env.basePredict n vs = Except.ok q)
    (hmeta : ∀ vs, ∃ q, env.metaPredict vs = Except.ok q)
    (hbf : ∀ n ∈ baseModelNames, ∀ c ∈ env.baseFeatures n,
        c ∈ env.scaledFeaturesList ∨ (lookupCol row c).isSome)
    (hmf : ∀ c ∈ env.metaFeatures, c ∈ baseModelNames) :
    (∀ c ∈ env.scaledFeaturesList,
        lookupCol (fillCols row env.scaledFeaturesList) c =
          some ((lookupCol row c).getD (Value.num 0))) ∧
    selectCols (fillCols row env.scaledFeaturesList) env.scaledFeaturesList =
      Except.ok (env.scaledFeaturesList.map fun c =>
        (lookupCol row c).getD (Value.num 0)) ∧
    ∃ q, get_prediction env row true = Value.num q := by
  refine ⟨fun c hc => by rw [lookupCol_fillCols, if_pos hc],
    selectCols_fillCols row _, ?_⟩
  have hl1 : loadArtifact env "scaler.joblib" = Except.ok () := by
    unfold loadArtifact
    rw [if_pos (hfiles _ (by simp [artifactFiles]))]
  have hl2 : loadArtifact env "scaled_features_list.joblib" = Except.ok () := by
    unfold loadArtifact
    rw [if_pos (hfiles _ (by simp [artifactFiles]))]
  have hl3 : loadArtifact env "random_forest.joblib" = Except.ok () := by
    unfold loadArtifact
    rw [if_pos (hfiles _ (by simp [artifactFiles]))]
  have hl4 : loadArtifact env "xgboost.joblib" = Except.ok () := by
    unfold loadArtifact
    rw [if_pos (hfiles _ (by simp [artifactFiles]))]
  have hl5 : loadArtifact env "linear_reg.joblib" = Except.ok () := by
    unfold loadArtifact
    rw [if_pos (hfiles _ (by simp [artifactFiles]))]
  have hl6 : loadArtifact env "meta_model.joblib" = Except.ok () := by
    unfold loadArtifact
    rw [if_pos (hfiles _ (by simp [artifactFiles]))]
  obtain ⟨w, hw⟩ := htrans
    (env.scaledFeaturesList.map fun c => (lookupCol row c).getD (Value.num 0))
  set processed := assignCols (fillCols row env.scaledFeaturesList)
    env.scaledFeaturesList w with hproc
  have hpres : ∀ n ∈ baseModelNames, ∀ c ∈ env.baseFeatures n,
      (lookupCol processed c).isSome := by
    intro n hn c hc
    exact isSome_lookupCol_processed row _ w c (hbf n hn c hc)
  obtain ⟨vs1, hvs1⟩ := selectCols_ok_of_isSome processed
    (env.baseFeatures "random_forest") (hpres _ (by simp [baseModelNames]))
  obtain ⟨q1, hq1⟩ := hbase "random_forest" vs1
  obtain ⟨vs2, hvs2⟩ := selectCols_ok_of_isSome processed
    (env.baseFeatures "xgboost") (hpres _ (by simp [baseModelNames]))
  obtain ⟨q2, hq2⟩ := hbase "xgboost" vs2
  obtain ⟨vs3, hvs3⟩ := selectCols_ok_of_isSome processed
    (env.baseFeatures "linear_reg") (hpres _ (by simp [baseModelNames]))
  obtain ⟨q3, hq3⟩ := hbase "linear_reg" vs3
  have hmpres : ∀ c ∈ env.metaFeatures,
      (lookupCol [("random_forest", Value.num q1), ("xgboost", Value.num q2),
        ("linear_reg", Value.num q3)] c).isSome := by
    intro c hc
    have hcb := hmf c hc
    simp only [baseModelNames, List.mem_cons, List.not_mem_nil, or_false] at hcb
    rcases hcb with rfl | rfl | rfl <;> simp [lookupCol]
  obtain ⟨mv, hmv⟩ := selectCols_ok_of_isSome _ env.metaFeatures hmpres
  obtain ⟨qf, hqf⟩ := hmeta mv
  refine ⟨qf, ?_⟩
  have hisE : env.scaledFeaturesList.isEmpty = false := by
    cases h : env.scaledFeaturesList with
    | nil => exact absurd h hscale
    | cons a t => rfl
  have hbody : get_prediction_body env row true = Except.ok (Value.num qf) := by
    unfold get_prediction_body
    simp only [hl1, hl2, hl3, hl4, hl5, hl6, bind, Except.bind, hisE,
      Bool.false_eq_true, if_false, selectCols_fillCols, hw, Except.mapError,
      ← hproc, baseModelNames, List.mapM_cons, List.mapM_nil, hvs1, hq1, hvs2,
      hq2, hvs3, hq3, pure, Except.pure, hmv, hqf, if_true]
  unfold get_prediction
  rw [hbody]

/-- C9 witness: a scaler expecting `extra_col`, which the row lacks, gets
it filled with `0` and the prediction still returns a number. -/
theorem C9_missing_columns_filled_witness :
    lookupCol (fillCols [("latitude", Value.num 5)] extraColumnEnv.scaledFeaturesList)
        "extra_col" = some (Value.num 0) ∧
      ∃ q, get_prediction extraColumnEnv [("latitude", Value.num 5)] true =
        Value.num q := by
  have h := C9_missing_columns_filled extraColumnEnv [("latitude", Value.num 5)]
    (by simp [extraColumnEnv])
    (fun f hf => hf)
    (fun vs => ⟨vs, rfl⟩)
    (fun n vs => ⟨0, rfl⟩)
    (fun vs => ⟨0, rfl⟩)
    (by intro n hn c hc; left; exact hc)
    (by intro c hc; simp [extraColumnEnv] at hc)
  refine ⟨?_, h.2.2⟩
  have h2 := h.1 "extra_col" (by simp [extraColumnEnv])
  rw [h2]
  rfl

end PredictionApp
